import Mathlib

/-!
Shallow embedding of the `pandoc` command-line wrapper crate
(src/src/lib.rs) in Lean 4, together with theorems settling the
claims about argument assembly, option rendering, the filter
pre-pass, search-path construction and the error model.

Paths (`PathBuf`) are modelled as `String` (their `display` form),
byte vectors (`Vec<u8>`) as `List Nat` with entries below 256, and
the child-process boundary as an explicit oracle
`Cmd → String → ExecResult` passed to the run/execute functions.
The embedding follows the `cfg(not(windows))` compilation of the
crate (`PATH_DELIMIT = ":"`, the unix `LATEX_PATH`, no
`LOCALAPPDATA` entry).
-/

/-! ### UTF-8 validation, decoding, lossy decoding and encoding

Models `core::str` UTF-8 validation as used by `String::from_utf8`
(`Utf8Error` with `valid_up_to` and `error_len`) and by
`String::from_utf8_lossy` (one U+FFFD per maximal invalid subpart). -/

/-- Model of `std::str::Utf8Error`: index of the first byte of the
first invalid sequence, and the length of that invalid subpart
(`none` when the input ends with an incomplete sequence). -/
structure Utf8Error where
  valid_up_to : Nat
  error_len : Option Nat
deriving DecidableEq, Repr

/-- A UTF-8 continuation byte: `0x80 ≤ b < 0xC0`. -/
def isCont (b : Nat) : Bool := 0x80 ≤ b && b < 0xC0

/-- Allowed range for the second byte of a three-byte sequence with
lead byte `b0` (excludes overlong encodings and surrogates). -/
def cont3Ok (b0 b1 : Nat) : Bool :=
  if b0 = 0xE0 then 0xA0 ≤ b1 && b1 < 0xC0
  else if b0 = 0xED then 0x80 ≤ b1 && b1 < 0xA0
  else isCont b1

/-- Allowed range for the second byte of a four-byte sequence with
lead byte `b0` (excludes overlong encodings and values above
U+10FFFF). -/
def cont4Ok (b0 b1 : Nat) : Bool :=
  if b0 = 0xF0 then 0x90 ≤ b1 && b1 < 0xC0
  else if b0 = 0xF4 then 0x80 ≤ b1 && b1 < 0x90
  else isCont b1

/-- Outcome of validating the first UTF-8 sequence of a byte list:
end of input, one decoded scalar consuming `len` bytes, or an
invalid subpart of `len` bytes (`none` = incomplete final sequence). -/
inductive Utf8Step where
  | done
  | char (c : Char) (len : Nat)
  | bad (len : Option Nat)
deriving DecidableEq, Repr

/-- Validate and decode the first UTF-8 sequence of a byte list,
following Rust's `run_utf8_validation` byte-range table. -/
def utf8Step : List Nat → Utf8Step
  | [] => .done
  | b :: rest =>
    if b < 0x80 then .char (Char.ofNat b) 1
    else if b < 0xC2 then .bad (some 1)
    else if b < 0xE0 then
      match rest with
      | [] => .bad none
      | b1 :: _ =>
        if isCont b1 then .char (Char.ofNat ((b - 0xC0) * 0x40 + (b1 - 0x80))) 2
        else .bad (some 1)
    else if b < 0xF0 then
      match rest with
      | [] => .bad none
      | b1 :: rest1 =>
        if cont3Ok b b1 then
          match rest1 with
          | [] => .bad none
          | b2 :: _ =>
            if isCont b2 then
              .char (Char.ofNat ((b - 0xE0) * 0x1000 + (b1 - 0x80) * 0x40 + (b2 - 0x80))) 3
            else .bad (some 2)
        else .bad (some 1)
    else if b < 0xF5 then
      match rest with
      | [] => .bad none
      | b1 :: rest1 =>
        if cont4Ok b b1 then
          match rest1 with
          | [] => .bad none
          | b2 :: rest2 =>
            if isCont b2 then
              match rest2 with
              | [] => .bad none
              | b3 :: _ =>
                if isCont b3 then
                  .char (Char.ofNat ((b - 0xF0) * 0x40000 + (b1 - 0x80) * 0x1000 +
                    (b2 - 0x80) * 0x40 + (b3 - 0x80))) 4
                else .bad (some 3)
            else .bad (some 2)
        else .bad (some 1)
    else .bad (some 1)

theorem utf8Step_char_bounds (l : List Nat) (c : Char) (n : Nat)
    (h : utf8Step l = .char c n) : 1 ≤ n ∧ n ≤ l.length := by
  cases l with
  | nil => simp [utf8Step] at h
  | cons b rest =>
    simp only [utf8Step] at h
    repeat' split at h
    all_goals simp_all
    all_goals omega

theorem utf8Step_badSome_bounds (l : List Nat) (k : Nat)
    (h : utf8Step l = .bad (some k)) : 1 ≤ k ∧ 1 ≤ l.length := by
  cases l with
  | nil => simp [utf8Step] at h
  | cons b rest =>
    simp only [utf8Step] at h
    repeat' split at h
    all_goals simp_all
    all_goals omega

/-- UTF-8 decoding from absolute byte index `i`: either the decoded
characters or the `Utf8Error` produced by Rust's validation. -/
def utf8DecodeFrom (i : Nat) (l : List Nat) : Except Utf8Error (List Char) :=
  match h : utf8Step l with
  | .done => .ok []
  | .char c n =>
    match utf8DecodeFrom (i + n) (l.drop n) with
    | .ok cs => .ok (c :: cs)
    | .error e => .error e
  | .bad len => .error ⟨i, len⟩
termination_by l.length
decreasing_by
  have := utf8Step_char_bounds l c n h
  simp only [List.length_drop]
  omega

/-- Model of `std::str::from_utf8` / `String::from_utf8` validation of
a whole byte vector. -/
def utf8Decode (l : List Nat) : Except Utf8Error (List Char) := utf8DecodeFrom 0 l

/-- The U+FFFD replacement character emitted by lossy decoding. -/
def replacementChar : Char := Char.ofNat 0xFFFD

/-- Model of `String::from_utf8_lossy`: decode, substituting one
U+FFFD for each maximal invalid subpart. -/
def utf8LossyFrom (l : List Nat) : List Char :=
  match h : utf8Step l with
  | .done => []
  | .char c n => c :: utf8LossyFrom (l.drop n)
  | .bad none => [replacementChar]
  | .bad (some k) => replacementChar :: utf8LossyFrom (l.drop k)
termination_by l.length
decreasing_by
  · have := utf8Step_char_bounds l c n h
    simp only [List.length_drop]
    omega
  · have := utf8Step_badSome_bounds l k h
    simp only [List.length_drop]
    omega

/-- `String::from_utf8_lossy` producing a Lean `String`. -/
def utf8Lossy (l : List Nat) : String := String.mk (utf8LossyFrom l)

/-- UTF-8 encoding of one character (scalar values are valid by
construction of `Char`). -/
def utf8EncodeChar (c : Char) : List Nat :=
  let n := c.toNat
  if n < 0x80 then [n]
  else if n < 0x800 then [0xC0 + n / 0x40, 0x80 + n % 0x40]
  else if n < 0x10000 then
    [0xE0 + n / 0x1000, 0x80 + n / 0x40 % 0x40, 0x80 + n % 0x40]
  else
    [0xF0 + n / 0x40000, 0x80 + n / 0x1000 % 0x40, 0x80 + n / 0x40 % 0x40, 0x80 + n % 0x40]

/-- The UTF-8 bytes of a Lean string (`str::as_bytes`). -/
def strBytes (s : String) : List Nat := s.data.flatMap utf8EncodeChar

theorem utf8DecodeFrom_eq_done (i : Nat) (l : List Nat) (h : utf8Step l = .done) :
    utf8DecodeFrom i l = .ok [] := by
  rw [utf8DecodeFrom.eq_def]
  split <;> simp_all

theorem utf8DecodeFrom_eq_char (i : Nat) (l : List Nat) (c : Char) (n : Nat)
    (h : utf8Step l = .char c n) :
    utf8DecodeFrom i l = (match utf8DecodeFrom (i + n) (l.drop n) with
      | .ok cs => .ok (c :: cs)
      | .error e => .error e) := by
  rw [utf8DecodeFrom.eq_def]
  split <;> simp_all

theorem utf8DecodeFrom_eq_bad (i : Nat) (l : List Nat) (len : Option Nat)
    (h : utf8Step l = .bad len) :
    utf8DecodeFrom i l = .error ⟨i, len⟩ := by
  rw [utf8DecodeFrom.eq_def]
  split <;> simp_all

theorem utf8LossyFrom_eq_done (l : List Nat) (h : utf8Step l = .done) :
    utf8LossyFrom l = [] := by
  rw [utf8LossyFrom.eq_def]
  split <;> simp_all

theorem utf8LossyFrom_eq_char (l : List Nat) (c : Char) (n : Nat)
    (h : utf8Step l = .char c n) :
    utf8LossyFrom l = c :: utf8LossyFrom (l.drop n) := by
  rw [utf8LossyFrom.eq_def]
  split <;> simp_all

theorem utf8LossyFrom_eq_badNone (l : List Nat) (h : utf8Step l = .bad none) :
    utf8LossyFrom l = [replacementChar] := by
  rw [utf8LossyFrom.eq_def]
  split <;> simp_all

theorem utf8LossyFrom_eq_badSome (l : List Nat) (k : Nat)
    (h : utf8Step l = .bad (some k)) :
    utf8LossyFrom l = replacementChar :: utf8LossyFrom (l.drop k) := by
  rw [utf8LossyFrom.eq_def]
  split <;> simp_all

/-- On a byte vector that decodes successfully, lossy decoding agrees
with strict decoding. -/
theorem utf8LossyFrom_of_ok (i : Nat) (l : List Nat) (cs : List Char)
    (h : utf8DecodeFrom i l = .ok cs) : utf8LossyFrom l = cs := by
  induction i, l using utf8DecodeFrom.induct generalizing cs with
  | case1 i l hstep =>
    rw [utf8DecodeFrom_eq_done i l hstep] at h
    cases h
    exact utf8LossyFrom_eq_done l hstep
  | case2 i l c n hstep cs0 hrec ih =>
    rw [utf8DecodeFrom_eq_char i l c n hstep, hrec] at h
    cases h
    rw [utf8LossyFrom_eq_char l c n hstep, ih cs0 hrec]
  | case3 i l c n hstep e hrec ih =>
    rw [utf8DecodeFrom_eq_char i l c n hstep, hrec] at h
    cases h
  | case4 i l len hstep =>
    rw [utf8DecodeFrom_eq_bad i l len hstep] at h
    cases h

set_option maxRecDepth 4000

/-- `utf8Step` only inspects the bytes it consumes: truncating the
input anywhere at or past the consumed length leaves a successful
step unchanged. -/
theorem utf8Step_take (l : List Nat) (c : Char) (n m : Nat)
    (h : utf8Step l = .char c n) (hm : n ≤ m) :
    utf8Step (l.take m) = .char c n := by
  cases l with
  | nil => simp [utf8Step] at h
  | cons b rest =>
    have h1 := utf8Step_char_bounds _ _ _ h
    simp only [utf8Step] at h
    by_cases c80 : b < 0x80
    · simp only [if_pos c80] at h
      cases h
      obtain ⟨m', rfl⟩ : ∃ m', m = m' + 1 := ⟨m - 1, by omega⟩
      simp [utf8Step, if_pos c80]
    · simp only [if_neg c80] at h
      by_cases cC2 : b < 0xC2
      · simp [if_pos cC2] at h
      · simp only [if_neg cC2] at h
        by_cases cE0 : b < 0xE0
        · -- two-byte sequence
          simp only [if_pos cE0] at h
          cases rest with
          | nil => simp at h
          | cons b1 rest1 =>
            simp only at h
            by_cases hc : isCont b1
            · simp only [if_pos hc] at h
              cases h
              obtain ⟨m', rfl⟩ : ∃ m', m = m' + 2 := ⟨m - 2, by omega⟩
              simp [utf8Step, if_neg c80, if_neg cC2, if_pos cE0, if_pos hc]
            · simp [if_neg hc] at h
        · simp only [if_neg cE0] at h
          by_cases cF0 : b < 0xF0
          · -- three-byte sequence
            simp only [if_pos cF0] at h
            cases rest with
            | nil => simp at h
            | cons b1 rest1 =>
              simp only at h
              by_cases hc1 : cont3Ok b b1
              · simp only [if_pos hc1] at h
                cases rest1 with
                | nil => simp at h
                | cons b2 rest2 =>
                  simp only at h
                  by_cases hc2 : isCont b2
                  · simp only [if_pos hc2] at h
                    cases h
                    obtain ⟨m', rfl⟩ : ∃ m', m = m' + 3 := ⟨m - 3, by omega⟩
                    simp [utf8Step, if_neg c80, if_neg cC2, if_neg cE0, if_pos cF0,
                      if_pos hc1, if_pos hc2]
                  · simp [if_neg hc2] at h
              · simp [if_neg hc1] at h
          · simp only [if_neg cF0] at h
            by_cases cF5 : b < 0xF5
            · -- four-byte sequence
              simp only [if_pos cF5] at h
              cases rest with
              | nil => simp at h
              | cons b1 rest1 =>
                simp only at h
                by_cases hc1 : cont4Ok b b1
                · simp only [if_pos hc1] at h
                  cases rest1 with
                  | nil => simp at h
                  | cons b2 rest2 =>
                    simp only at h
                    by_cases hc2 : isCont b2
                    · simp only [if_pos hc2] at h
                      cases rest2 with
                      | nil => simp at h
                      | cons b3 rest3 =>
                        simp only at h
                        by_cases hc3 : isCont b3
                        · simp only [if_pos hc3] at h
                          cases h
                          obtain ⟨m', rfl⟩ : ∃ m', m = m' + 4 := ⟨m - 4, by omega⟩
                          simp [utf8Step, if_neg c80, if_neg cC2, if_neg cE0, if_neg cF0,
                            if_pos cF5, if_pos hc1, if_pos hc2, if_pos hc3]
                        · simp [if_neg hc3] at h
                    · simp [if_neg hc2] at h
                · simp [if_neg hc1] at h
            · simp [if_neg cF5] at h

/-- `valid_up_to` really counts valid leading bytes: the prefix of
that length (measured from the start index) decodes successfully. -/
theorem utf8DecodeFrom_error_prefix (i : Nat) (l : List Nat) (e : Utf8Error)
    (h : utf8DecodeFrom i l = .error e) :
    i ≤ e.valid_up_to ∧
      ∃ cs, utf8DecodeFrom i (l.take (e.valid_up_to - i)) = .ok cs := by
  induction i, l using utf8DecodeFrom.induct generalizing e with
  | case1 i l hstep =>
    rw [utf8DecodeFrom_eq_done i l hstep] at h
    cases h
  | case2 i l c n hstep cs0 hrec ih =>
    rw [utf8DecodeFrom_eq_char i l c n hstep, hrec] at h
    cases h
  | case3 i l c n hstep e' hrec ih =>
    rw [utf8DecodeFrom_eq_char i l c n hstep, hrec] at h
    have he : e' = e := by injection h
    subst he
    obtain ⟨hle, cs, hcs⟩ := ih _ hrec
    have hn := utf8Step_char_bounds _ _ _ hstep
    refine ⟨by omega, ?_⟩
    have htk : utf8Step (l.take (e'.valid_up_to - i)) = .char c n :=
      utf8Step_take l c n _ hstep (by omega)
    rw [utf8DecodeFrom_eq_char _ _ _ _ htk]
    have hdt : (l.take (e'.valid_up_to - i)).drop n =
        (l.drop n).take (e'.valid_up_to - (i + n)) := by
      rw [List.drop_take]
      congr 1
      omega
    rw [hdt, hcs]
    exact ⟨c :: cs, rfl⟩
  | case4 i l len hstep =>
    rw [utf8DecodeFrom_eq_bad i l len hstep] at h
    cases h
    refine ⟨le_refl _, [], ?_⟩
    have h0 : ({ valid_up_to := i, error_len := len } : Utf8Error).valid_up_to - i = 0 := by
      simp
    rw [h0, List.take_zero]
    exact utf8DecodeFrom_eq_done _ _ rfl

/-! ### Option model (src/src/lib.rs lines 31–442)

`PathBuf` payloads are modelled as `String` (their `display` form),
`u32` as `Nat`, `i32` as `Int`. `PandocOption.apply` returns the list
of tokens the corresponding `apply` arm appends to the command. -/

/-- `TrackChanges` (lib.rs line 31). -/
inductive TrackChanges where
  | Accept
  | Reject
  | All
deriving DecidableEq, Repr

/-- `Display for TrackChanges` (lib.rs line 38). -/
def TrackChanges.display : TrackChanges → String
  | .Accept => "accept"
  | .Reject => "reject"
  | .All => "all"

/-- `EmailObfuscation` (lib.rs line 48). -/
inductive EmailObfuscation where
  | None
  | Javascript
  | References
deriving DecidableEq, Repr

/-- `Display for EmailObfuscation` (lib.rs line 55). -/
def EmailObfuscation.display : EmailObfuscation → String
  | .None => "none"
  | .Javascript => "javascript"
  | .References => "references"

/-- `Tld` (lib.rs line 67). -/
inductive Tld where
  | Chapter
  | Section
  | Part
deriving DecidableEq, Repr

/-- `PandocRuntimeSystemOption` (lib.rs line 275). -/
inductive PandocRuntimeSystemOption where
  | MaximumHeapMemory (size : String)
deriving DecidableEq, Repr

/-- `PandocOption` (lib.rs line 74). The two deprecated variants
(`BaseHeaderLevel`, `ReferenceDocx`) stay constructible, as in the
source. `IdPrefix`/`TitlePrefix` are spelled with an `Arg` suffix. -/
inductive PandocOption where
  | DataDir (dir : String)
  | Defaults (file : String)
  | Strict
  | ParseRaw
  | Smart
  | OldDashes
  | BaseHeaderLevel (n : Nat)
  | ShiftHeadingLevelBy (n : Int)
  | IndentedCodeClasses (s : String)
  | Filter (program : String)
  | LuaFilter (script : String)
  | Normalize
  | PreserveTabs
  | TabStop (n : Nat)
  | TrackChanges (v : TrackChanges)
  | ExtractMedia (p : String)
  | Standalone
  | Template (p : String)
  | Meta (k : String) (v : Option String)
  | Var (k : String) (v : Option String)
  | PrintDefaultTemplate (f : String)
  | PrintDefaultDataFile (f : String)
  | NoWrap
  | Columns (n : Nat)
  | TableOfContents
  | TableOfContentsDepth (d : Nat)
  | NoHighlight
  | HighlightStyle (s : String)
  | IncludeInHeader (p : String)
  | IncludeBeforeBody (p : String)
  | IncludeAfterBody (p : String)
  | SelfContained
  | Offline
  | Html5
  | HtmlQTags
  | Ascii
  | ReferenceLinks
  | AtxHeaders
  | TopLevelDivision (t : Tld)
  | NumberSections
  | NumberOffset (nums : List Nat)
  | NoTexLigatures
  | Listings
  | Incremental
  | SlideLevel (n : Nat)
  | SectionDivs
  | DefaultImageExtension (s : String)
  | EmailObfuscation (o : EmailObfuscation)
  | IdPrefixArg (s : String)
  | TitlePrefixArg (s : String)
  | Css (url : String)
  | ReferenceOdt (file : String)
  | ReferenceDocx (file : String)
  | ReferenceDoc (file : String)
  | EpubStylesheet (file : String)
  | EpubCoverImage (file : String)
  | EpubMetadata (file : String)
  | EpubEmbedFont (file : String)
  | EpubChapterLevel (n : Nat)
  | PdfEngine (program : String)
  | PdfEngineOpt (s : String)
  | Citeproc
  | Bibliography (file : String)
  | Csl (file : String)
  | CitationAbbreviations (f : String)
  | Natbib
  | Biblatex
  | LatexMathML (url : Option String)
  | AsciiMathML (url : Option String)
  | MathML (url : Option String)
  | MimeTex (url : Option String)
  | WebTex (url : Option String)
  | JsMath (url : Option String)
  | MathJax (url : Option String)
  | Katex (url : Option String)
  | KatexStylesheet (url : String)
  | GladTex
  | Trace
  | DumpArgs
  | IgnoreArgs
  | Verbose
  | ResourcePath (paths : List String)
  | RuntimeSystem (rts_options : List PandocRuntimeSystemOption)
  | Sandbox
  | EOL (eol : String)

/-- `PandocOption::apply` (lib.rs line 283): the tokens appended to
the command for one option value. -/
def PandocOption.apply : PandocOption → List String
  | .NumberOffset nums =>
    let nums := nums.foldl
      (fun b n => if b.isEmpty then toString n else b ++ ", " ++ toString n) ""
    ["--number-offset=" ++ nums]
  | .DataDir dir => ["--data-dir=" ++ dir]
  | .Defaults p => ["--defaults=" ++ p]
  | .Strict => ["--strict"]
  | .ParseRaw => ["--parse-raw"]
  | .Smart => ["--smart"]
  | .OldDashes => ["--old-dashes"]
  | .BaseHeaderLevel n => ["--base-header-level=" ++ toString n]
  | .ShiftHeadingLevelBy n => ["--shift-heading-level-by=" ++ toString n]
  | .IndentedCodeClasses s => ["--indented-code-classes=" ++ s]
  | .Filter program => ["--filter=" ++ program]
  | .LuaFilter script => ["--lua-filter=" ++ script]
  | .Normalize => ["--normalize"]
  | .PreserveTabs => ["--preserve-tabs"]
  | .TabStop n => ["--tab-stop=" ++ toString n]
  | .TrackChanges v => ["--track-changes=" ++ v.display]
  | .ExtractMedia p => ["--extract-media=" ++ p]
  | .Standalone => ["--standalone"]
  | .Template p => ["--template=" ++ p]
  | .Meta k (some v) => ["-M", k ++ ":" ++ v]
  | .Meta k none => ["-M", k]
  | .Var k (some v) => ["-V", k ++ ":" ++ v]
  | .Var k none => ["-V", k]
  | .PrintDefaultTemplate f => ["--print-default-template=" ++ f]
  | .PrintDefaultDataFile f => ["--print-default-data-file=" ++ f]
  | .NoWrap => ["--wrap=none"]
  | .Columns n => ["--columns=" ++ toString n]
  | .TableOfContents => ["--table-of-contents"]
  | .TableOfContentsDepth d => ["--toc-depth=" ++ toString d]
  | .NoHighlight => ["--no-highlight"]
  | .HighlightStyle s => ["--highlight-style=" ++ s]
  | .IncludeInHeader p => ["--include-in-header=" ++ p]
  | .IncludeBeforeBody p => ["--include-before-body=" ++ p]
  | .IncludeAfterBody p => ["--include-after-body=" ++ p]
  | .SelfContained => ["--self-contained"]
  | .Offline => ["--offline"]
  | .Html5 => ["--html5"]
  | .HtmlQTags => ["--html-q-tags"]
  | .Ascii => ["--ascii"]
  | .ReferenceLinks => ["--reference-links"]
  | .AtxHeaders => ["--markdown-headings=atx"]
  | .TopLevelDivision .Chapter => ["--top-level-division=chapter"]
  | .TopLevelDivision .Section => ["--top-level-division=section"]
  | .TopLevelDivision .Part => ["--top-level-division=part"]
  | .NumberSections => ["--number-sections"]
  | .NoTexLigatures => ["--no-tex-ligatures"]
  | .Listings => ["--listings"]
  | .Incremental => ["--incremental"]
  | .SlideLevel n => ["--slide-level=" ++ toString n]
  | .SectionDivs => ["--section-divs"]
  | .DefaultImageExtension s => ["--default-image-extension=" ++ s]
  | .EmailObfuscation o => ["--email-obfuscation=" ++ o.display]
  | .IdPrefixArg s => ["--id-prefix=" ++ s]
  | .TitlePrefixArg s => ["--title-prefix=" ++ s]
  | .Css url => ["--css=" ++ url]
  | .ReferenceOdt file => ["--reference-odt=" ++ file]
  | .ReferenceDocx file => ["--reference-docx=" ++ file]
  | .ReferenceDoc file => ["--reference-doc=" ++ file]
  | .EpubStylesheet file => ["--epub-stylesheet=" ++ file]
  | .EpubCoverImage file => ["--epub-cover-image=" ++ file]
  | .EpubMetadata file => ["--epub-metadata=" ++ file]
  | .EpubEmbedFont file => ["--epub-embed-font=" ++ file]
  | .EpubChapterLevel n => ["--epub-chapter-level=" ++ toString n]
  | .PdfEngine program => ["--pdf-engine=" ++ program]
  | .PdfEngineOpt s => ["--pdf-engine-opt=" ++ s]
  | .Citeproc => ["--citeproc"]
  | .Bibliography file => ["--bibliography=" ++ file]
  | .Csl file => ["--csl=" ++ file]
  | .CitationAbbreviations f => ["--citation-abbreviations=" ++ f]
  | .Natbib => ["--natbib"]
  | .Biblatex => ["--biblatex"]
  | .LatexMathML (some url) => ["--latexmathml=" ++ url]
  | .AsciiMathML (some url) => ["--asciimathml=" ++ url]
  | .MathML (some url) => ["--mathml=" ++ url]
  | .MimeTex (some url) => ["--mimetex=" ++ url]
  | .WebTex (some url) => ["--webtex=" ++ url]
  | .JsMath (some url) => ["--jsmath=" ++ url]
  | .MathJax (some url) => ["--mathjax=" ++ url]
  | .Katex (some url) => ["--katex=" ++ url]
  | .LatexMathML none => ["--latexmathml"]
  | .AsciiMathML none => ["--asciimathml"]
  | .MathML none => ["--mathml"]
  | .MimeTex none => ["--mimetex"]
  | .WebTex none => ["--webtex"]
  | .JsMath none => ["--jsmath"]
  | .MathJax none => ["--mathjax"]
  | .Katex none => ["--katex"]
  | .KatexStylesheet url => ["--katex-stylesheet=" ++ url]
  | .GladTex => ["--gladtex"]
  | .Trace => ["--trace"]
  | .DumpArgs => ["--dump-args"]
  | .IgnoreArgs => ["--ignore-args"]
  | .Verbose => ["--verbose"]
  | .ResourcePath paths =>
    -- non-windows: the locally computed delimiter is ":"
    ["--resource-path=" ++ String.intercalate ":" paths]
  | .RuntimeSystem rts_options =>
    ["+RTS"] ++
      rts_options.map (fun o => match o with
        | PandocRuntimeSystemOption.MaximumHeapMemory s => "-M" ++ s) ++
      ["-RTS"]
  | .Sandbox => ["--sandbox"]
  | .EOL eol => ["--eol=" ++ eol]

/-! ### Formats (src/src/lib.rs lines 444–820) -/

/-- `OutputFormat` (lib.rs line 470). -/
inductive OutputFormat where
  | Native
  | Json
  | Plain
  | Markdown
  | MarkdownStrict
  | MarkdownPhpextra
  | MarkdownGithub
  | Commonmark
  | CommonmarkX
  | Rst
  | Html
  | Html5
  | Latex
  | Beamer
  | Context
  | Pdf
  | Man
  | MediaWiki
  | Dokuwiki
  | Textile
  | Org
  | Texinfo
  | Opml
  | Docbook
  | OpenDocument
  | Odt
  | Docx
  | Haddock
  | Rtf
  | Epub
  | Epub3
  | Fb2
  | Asciidoc
  | Icml
  | Slidy
  | Slideous
  | Dzslides
  | Revealjs
  | S5
  | Lua (path : String)
  | Other (f : String)
deriving DecidableEq, Repr

/-- `Display for OutputFormat` (lib.rs line 555). The `Lua` arm is
`unimplemented!()` in the source, i.e. it panics: modelled as `none`. -/
def OutputFormat.display : OutputFormat → Option String
  | .Native => some "native"
  | .Json => some "json"
  | .Plain => some "plain"
  | .Markdown => some "markdown"
  | .MarkdownStrict => some "markdown_strict"
  | .MarkdownPhpextra => some "markdown_phpextra"
  | .MarkdownGithub => some "markdown_github"
  | .Commonmark => some "commonmark"
  | .CommonmarkX => some "commonmark_x"
  | .Rst => some "rst"
  | .Html => some "html"
  | .Html5 => some "html5"
  | .Latex => some "latex"
  | .Beamer => some "beamer"
  | .Context => some "context"
  | .Pdf => some "pdf"
  | .Man => some "man"
  | .MediaWiki => some "mediawiki"
  | .Dokuwiki => some "dokuwiki"
  | .Textile => some "textile"
  | .Org => some "org"
  | .Texinfo => some "texinfo"
  | .Opml => some "opml"
  | .Docbook => some "docbook"
  | .OpenDocument => some "open_document"
  | .Odt => some "odt"
  | .Docx => some "docx"
  | .Haddock => some "haddock"
  | .Rtf => some "rtf"
  | .Epub => some "epub"
  | .Epub3 => some "epub3"
  | .Fb2 => some "fb2"
  | .Asciidoc => some "asciidoc"
  | .Icml => some "icml"
  | .Slidy => some "slidy"
  | .Slideous => some "slideous"
  | .Dzslides => some "dzslides"
  | .Revealjs => some "revealjs"
  | .S5 => some "s5"
  | .Lua _ => none
  | .Other f => some f

/-- `InputFormat` (lib.rs line 607). -/
inductive InputFormat where
  | Native
  | Json
  | Markdown
  | MarkdownStrict
  | MarkdownPhpextra
  | MarkdownGithub
  | Commonmark
  | CommonmarkX
  | Textile
  | Rst
  | Rtf
  | Html
  | DocBook
  | T2t
  | Docx
  | Epub
  | Opml
  | Org
  | MediaWiki
  | Twiki
  | Haddock
  | Latex
  | Other (f : String)
deriving DecidableEq, Repr

/-- `Display for InputFormat` (lib.rs line 657); total. -/
def InputFormat.display : InputFormat → String
  | .Native => "native"
  | .Json => "json"
  | .Markdown => "markdown"
  | .MarkdownStrict => "markdown_strict"
  | .MarkdownPhpextra => "markdown_phpextra"
  | .MarkdownGithub => "markdown_github"
  | .Commonmark => "commonmark"
  | .CommonmarkX => "commonmark_x"
  | .Rst => "rst"
  | .Rtf => "rtf"
  | .Html => "html"
  | .Latex => "latex"
  | .MediaWiki => "mediawiki"
  | .Textile => "textile"
  | .Org => "org"
  | .Opml => "opml"
  | .Docx => "docx"
  | .Haddock => "haddock"
  | .Epub => "epub"
  | .DocBook => "docbook"
  | .T2t => "t2t"
  | .Twiki => "twiki"
  | .Other f => f

/-- `MarkdownExtension` (lib.rs line 691). -/
inductive MarkdownExtension where
  | Smart
  | Attributes
  | EscapedLineBreaks
  | BlankBeforeHeader
  | HeaderAttributes
  | AutoIdentifiers
  | ImplicitHeaderReferences
  | BlankBeforeBlockQuote
  | FencedDivs
  | FencedCodeBlocks
  | BacktickCodeBlocks
  | FencedCodeAttributes
  | LineBlocks
  | FancyLists
  | Startnum
  | TaskLists
  | DefinitionLists
  | ExampleLists
  | TableCaptions
  | SimpleTables
  | MultilineTables
  | GridTables
  | PipeTables
  | PandocTitleBlock
  | YamlMetadataBlock
  | AllSymbolsEscapable
  | IntrawordUnderscores
  | Strikeout
  | Superscript
  | Subscript
  | InlineCodeAttributes
  | TexMathDollars
  | RawAttribute
  | RawHtml
  | MarkdownInHtmlBlocks
  | NativeDivs
  | NativeSpans
  | BracketedSpans
  | RawTex
  | LatexMacroDefs
  | ShortcutReferenceLinks
  | ImplicitFigures
  | Footnotes
  | InlineNotes
  | Citations
  | ListsWithoutPrecedingBlankline
  | HardLineBreaks
  | IgnoreLineBreaks
  | TexMathSingleBackslash
  | TexMathDoubleBackslash
  | MarkdownAttribute
  | MmdTitleBlock
  | Abbreviations
  | AutolinkBareUris
  | AsciiIdentifiers
  | LinkAttributes
  | MmdHeaderIdentifiers
  | CompactDefinitionLists
  | RebaseRelativePaths
  | Other (e : String)
deriving Repr

/-- `Display for MarkdownExtension` (lib.rs line 754). The source
variant `LatexMacros` is spelled `LatexMacroDefs` here; its rendering
is unchanged. The `MmdTitleBlock` arm renders with a capital `M`, as
in the source (lib.rs line 809). -/
def MarkdownExtension.display : MarkdownExtension → String
  | .Smart => "smart"
  | .Attributes => "attributes"
  | .EscapedLineBreaks => "escaped_line_breaks"
  | .BlankBeforeHeader => "blank_before_header"
  | .HeaderAttributes => "header_attributes"
  | .AutoIdentifiers => "auto_identifiers"
  | .ImplicitHeaderReferences => "implicit_header_references"
  | .BlankBeforeBlockQuote => "blank_before_block_quote"
  | .FencedDivs => "fenced_divs"
  | .FencedCodeBlocks => "fenced_code_blocks"
  | .BacktickCodeBlocks => "backtick_code_blocks"
  | .FencedCodeAttributes => "fenced_code_attributes"
  | .LineBlocks => "line_blocks"
  | .FancyLists => "fancy_lists"
  | .Startnum => "startnum"
  | .TaskLists => "task_lists"
  | .DefinitionLists => "definition_lists"
  | .ExampleLists => "example_lists"
  | .TableCaptions => "table_captions"
  | .SimpleTables => "simple_tables"
  | .MultilineTables => "multiline_tables"
  | .GridTables => "grid_tables"
  | .PipeTables => "pipe_tables"
  | .PandocTitleBlock => "pandoc_title_block"
  | .YamlMetadataBlock => "yaml_metadata_block"
  | .AllSymbolsEscapable => "all_symbols_escapable"
  | .IntrawordUnderscores => "intraword_underscores"
  | .Strikeout => "strikeout"
  | .Superscript => "superscript"
  | .Subscript => "subscript"
  | .InlineCodeAttributes => "inline_code_attributes"
  | .TexMathDollars => "tex_math_dollars"
  | .RawAttribute => "raw_attribute"
  | .RawHtml => "raw_html"
  | .MarkdownInHtmlBlocks => "markdown_in_html_blocks"
  | .NativeDivs => "native_divs"
  | .NativeSpans => "native_spans"
  | .BracketedSpans => "bracketed_spans"
  | .RawTex => "raw_tex"
  | .LatexMacroDefs => "latex_macros"
  | .ShortcutReferenceLinks => "shortcut_reference_links"
  | .ImplicitFigures => "implicit_figures"
  | .Footnotes => "footnotes"
  | .InlineNotes => "inline_notes"
  | .Citations => "citations"
  | .ListsWithoutPrecedingBlankline => "lists_without_preceding_blankline"
  | .HardLineBreaks => "hard_line_breaks"
  | .IgnoreLineBreaks => "ignore_line_breaks"
  | .TexMathSingleBackslash => "tex_math_single_backslash"
  | .TexMathDoubleBackslash => "tex_math_double_backslash"
  | .MarkdownAttribute => "markdown_attribute"
  | .MmdTitleBlock => "Mmd_title_block"
  | .Abbreviations => "abbreviations"
  | .AutolinkBareUris => "autolink_bare_uris"
  | .AsciiIdentifiers => "ascii_identifiers"
  | .LinkAttributes => "link_attributes"
  | .MmdHeaderIdentifiers => "mmd_header_identifiers"
  | .CompactDefinitionLists => "compact_definition_lists"
  | .RebaseRelativePaths => "rebase_relative_paths"
  | .Other e => e

/-! ### Builder state (src/src/lib.rs lines 822–1062) -/

/-- `InputKind` (lib.rs line 822). -/
inductive InputKind where
  | Files (files : List String)
  | Pipe (text : String)
deriving DecidableEq, Repr

/-- `OutputKind` (lib.rs line 830). -/
inductive OutputKind where
  | File (path : String)
  | Pipe
deriving DecidableEq, Repr

/-- The argument builder `Pandoc` (lib.rs line 837). Filters are
modelled as Lean functions `String → String`, as in the source
(`Rc<dyn Fn(String) -> String>`). -/
structure Pandoc where
  input : Option InputKind
  input_format : Option (InputFormat × List MarkdownExtension)
  output : Option OutputKind
  output_format : Option (OutputFormat × List MarkdownExtension)
  latex_path_hint : List String
  pandoc_path_hint : List String
  filters : List (String → String)
  args : List (String × String)
  options : List PandocOption
  print_pandoc_cmdline : Bool

/-- `Pandoc::new` (lib.rs line 860): the all-default builder. -/
def Pandoc.new : Pandoc :=
  { input := none, input_format := none, output := none, output_format := none,
    latex_path_hint := [], pandoc_path_hint := [], filters := [], args := [],
    options := [], print_pandoc_cmdline := false }

/-- `Pandoc::add_latex_path_hint` (lib.rs line 871). -/
def Pandoc.add_latex_path_hint (p : Pandoc) (path : String) : Pandoc :=
  { p with latex_path_hint := p.latex_path_hint ++ [path] }

/-- `Pandoc::add_pandoc_path_hint` (lib.rs line 880). -/
def Pandoc.add_pandoc_path_hint (p : Pandoc) (path : String) : Pandoc :=
  { p with pandoc_path_hint := p.pandoc_path_hint ++ [path] }

/-- `Pandoc::set_output_format` (lib.rs line 904). -/
def Pandoc.set_output_format (p : Pandoc) (format : OutputFormat)
    (extensions : List MarkdownExtension) : Pandoc :=
  { p with output_format := some (format, extensions) }

/-- `Pandoc::set_input_format` (lib.rs line 913). -/
def Pandoc.set_input_format (p : Pandoc) (format : InputFormat)
    (extensions : List MarkdownExtension) : Pandoc :=
  { p with input_format := some (format, extensions) }

/-- `Pandoc::add_input` (lib.rs line 928). Returns `none` for the
`panic!` taken when the input was already set to a stdin pipe. -/
def Pandoc.add_input (p : Pandoc) (filename : String) : Option Pandoc :=
  match p.input with
  | some (.Files files) => some { p with input := some (.Files (files ++ [filename])) }
  | some (.Pipe _) => none
  | none => some { p with input := some (.Files [filename]) }

/-- `Pandoc::set_input` (lib.rs line 957): overrides any input
already supplied. -/
def Pandoc.set_input (p : Pandoc) (input : InputKind) : Pandoc :=
  { p with input := some input }

/-- `Pandoc::set_output` (lib.rs line 963). -/
def Pandoc.set_output (p : Pandoc) (output : OutputKind) : Pandoc :=
  { p with output := some output }

/-- `Pandoc::add_filter` (lib.rs line 1045). -/
def Pandoc.add_filter (p : Pandoc) (filter : String → String) : Pandoc :=
  { p with filters := p.filters ++ [filter] }

/-- `Pandoc::add_option` (lib.rs line 1054). -/
def Pandoc.add_option (p : Pandoc) (option : PandocOption) : Pandoc :=
  { p with options := p.options ++ [option] }

/-- `Pandoc::add_options` (lib.rs line 1059). -/
def Pandoc.add_options (p : Pandoc) (options : List PandocOption) : Pandoc :=
  { p with options := p.options ++ options }

/-- `Pandoc::arg` (lib.rs line 1161): raw `--key=value` passthrough. -/
def Pandoc.arg (p : Pandoc) (key value : String) : Pandoc :=
  { p with args := p.args ++ [(key, value)] }

/-! ### Process model and error taxonomy (lib.rs lines 1248–1327) -/

/-- The discriminant of `std::io::ErrorKind` needed by the `From`
conversion: `NotFound` versus anything else. -/
inductive IoErrorKind where
  | notFound
  | permissionDenied
  | brokenPipe
  | other (tag : Nat)
deriving DecidableEq, Repr

/-- Model of `std::io::Error`: its kind plus its own `Debug`
rendering (an io error formats independently of this crate). -/
structure IoError where
  kind : IoErrorKind
  debugRepr : String
deriving DecidableEq, Repr

/-- Model of `std::process::Output`: the `success()` and `code()`
observations of the exit status plus captured stdout/stderr bytes. -/
structure ProcessOutput where
  success : Bool
  code : Option Int
  stdout : List Nat
  stderr : List Nat
deriving DecidableEq, Repr

/-- `PandocError` (lib.rs line 1261). -/
inductive PandocError where
  | BadUtf8Conversion (valid_up_to : Nat)
  | IoErr (e : IoError)
  | Err (o : ProcessOutput)
  | NoOutputSpecified
  | NoInputSpecified
  | PandocNotFound
deriving DecidableEq, Repr

/-- `impl From<std::io::Error> for PandocError` (lib.rs line 1276):
the OS-level not-found condition becomes the distinct
`PandocNotFound` kind, everything else a generic `IoErr`. -/
def PandocError.fromIoError (err : IoError) : PandocError :=
  match err.kind with
  | .notFound => .PandocNotFound
  | _ => .IoErr err

/-- `Debug` rendering of `Option<i32>` (`{:?}` of `status.code()`). -/
def codeDebug : Option Int → String
  | some n => "Some(" ++ toString n ++ ")"
  | none => "None"

/-- `impl Debug for PandocError` (lib.rs line 1291). Captured stream
bytes go through `String::from_utf8_lossy`. -/
def PandocError.debugRender : PandocError → String
  | .IoErr e => e.debugRepr
  | .Err e =>
    "exit_code: " ++ codeDebug e.code ++ "stdout: " ++ utf8Lossy e.stdout ++
      "stderr: " ++ utf8Lossy e.stderr
  | .NoOutputSpecified => "No output file was specified"
  | .NoInputSpecified => "No input files were specified"
  | .PandocNotFound => "Pandoc not found, did you forget to install pandoc?"
  | .BadUtf8Conversion byte =>
    "UTF-8 conversion of pandoc output failed after byte " ++ toString byte ++ "."

/-- `PandocOutput` (lib.rs line 1249). -/
inductive PandocOutput where
  | ToFile (path : String)
  | ToBuffer (s : String)
  | ToBufferRaw (bytes : List Nat)
deriving DecidableEq, Repr

/-! ### The execution engine (lib.rs lines 1064–1245)

The subprocess boundary is an oracle `ExecOracle`; run functions also
return the trace of attempted child invocations (command plus the
text written to its stdin), so that "never spawns" claims are
statable. -/

/-- The command being assembled (`std::process::Command`): program,
ordered argument vector, `PATH` override and I/O pipe settings. -/
structure Cmd where
  program : String
  args : List String
  envPATH : Option String
  stdinPiped : Bool
  stdoutPiped : Bool
  stderrPiped : Bool
deriving DecidableEq, Repr

/-- Result of one child-process invocation: the spawn itself failed
(`child.spawn()`), writing stdin / waiting failed, or the process
ran to completion with an exit status and captured streams. -/
inductive ExecResult where
  | spawnFailure (e : IoError)
  | ioFailure (e : IoError)
  | output (o : ProcessOutput)
deriving DecidableEq, Repr

/-- The subprocess boundary: maps the assembled command and the text
written to its stdin to what the OS reports back. -/
abbrev ExecOracle := Cmd → String → ExecResult

/-- Outcome of `Pandoc::run`: success bytes, a typed error, or a
Rust panic (modelled explicitly because `Display for
OutputFormat::Lua` is `unimplemented!()`). -/
inductive RunResult where
  | ok (bytes : List Nat)
  | err (e : PandocError)
  | panicked (msg : String)
deriving DecidableEq, Repr

/-- The panic message of `unimplemented!()`. -/
def notImplementedMsg : String := "not implemented"

/-- The panic message of `Result::unwrap` on a `Utf8Error`
(lib.rs line 1213). -/
def utf8UnwrapMsg : String := "called Result::unwrap() on an Err value: Utf8Error"

/-- `const LATEX_PATH` for `cfg(not(windows))` (lib.rs line 18). -/
def LATEX_PATH : List String := ["/usr/local/bin", "/usr/local/texlive/2015/bin/i386-linux"]

/-- `const PATH_DELIMIT` for `cfg(not(windows))` (lib.rs line 26). -/
def PATH_DELIMIT : String := ":"

/-- `os_specific_paths` for `cfg(not(windows))` (lib.rs line 1083):
empty. -/
def osSpecificPaths : List String := []

/-- `format.to_string()` followed by `write!(arg, "+{}", extension)`
for each extension (lib.rs lines 1068–1071). -/
def formatWithExts (base : String) (extensions : List MarkdownExtension) : String :=
  extensions.foldl (fun arg extension => arg ++ "+" ++ extension.display) base

/-- Spawn, write stdin, wait, and classify the exit status
(lib.rs lines 1147–1156): spawn/write/wait failures propagate through
the `From<std::io::Error>` conversion via `?`, a completed child
yields its stdout on success and `PandocError::Err` with the full
`Output` otherwise. -/
def spawnClassify : ExecResult → RunResult
  | .spawnFailure e => .err (PandocError.fromIoError e)
  | .ioFailure e => .err (PandocError.fromIoError e)
  | .output o => if o.success then .ok o.stdout else .err (.Err o)

/-- `Pandoc::run` (lib.rs line 1064), with a trace of attempted child
invocations. `envPATH` is the inherited `env::var("PATH")` value. -/
def Pandoc.runT (p : Pandoc) (envPATH : String) (exec : ExecOracle) :
    RunResult × List (Cmd × String) :=
  let cmd : Cmd :=
    { program := "pandoc", args := [], envPATH := none,
      stdinPiped := false, stdoutPiped := false, stderrPiped := false }
  -- `-f FORMAT[+ext…]` (lib.rs 1066–1073)
  let cmd := match p.input_format with
    | some (format, extensions) =>
      { cmd with args := cmd.args ++ ["-f", formatWithExts format.display extensions] }
    | none => cmd
  -- raw `--key=value` passthrough args (lib.rs 1074–1076)
  let cmd := { cmd with args := cmd.args ++ p.args.map (fun (kv : String × String) => "--" ++ kv.1 ++ "=" ++ kv.2) }
  -- search-path assembly and `cmd.env("PATH", path)` (lib.rs 1078–1100)
  let path : String := String.intercalate PATH_DELIMIT
    (p.latex_path_hint ++ p.pandoc_path_hint ++ osSpecificPaths ++ LATEX_PATH ++ [envPATH])
  let cmd := { cmd with envPATH := some path }
  -- missing sink / missing source checks, in this order (lib.rs 1101–1102)
  match p.output with
  | none => (.err .NoOutputSpecified, [])
  | some output =>
    match p.input with
    | none => (.err .NoInputSpecified, [])
    | some input =>
      -- positional input files, or piped stdin payload (lib.rs 1103–1114)
      let cmdInput : Cmd × String := match input with
        | .Files files => ({ cmd with args := cmd.args ++ files }, "")
        | .Pipe text => ({ cmd with stdinPiped := true }, text)
      let cmd := cmdInput.1
      let inputText := cmdInput.2
      -- output sink designation (lib.rs 1115–1127)
      let cmd := match output with
        | .File filename => { cmd with args := cmd.args ++ ["-o", filename] }
        | .Pipe =>
          match p.output_format with
          | some (.Pdf, _) => { cmd with args := cmd.args ++ ["-o", "-"], stdoutPiped := true }
          | _ => { cmd with stdoutPiped := true }
      -- always capture stderr (lib.rs 1130)
      let cmd := { cmd with stderrPiped := true }
      let spawnPhase : Cmd → RunResult × List (Cmd × String) := fun cmd =>
        -- catalog options in insertion order (lib.rs 1141–1143)
        let cmd := { cmd with args := cmd.args ++ p.options.flatMap PandocOption.apply }
        -- spawn, write stdin, wait, classify exit (lib.rs 1147–1156)
        (spawnClassify (exec cmd inputText), [(cmd, inputText)])
      -- `-t FORMAT[+ext…]`; `Display for OutputFormat` panics on
      -- `Lua` before any spawn (lib.rs 1132–1139 and 598)
      match p.output_format with
      | none => spawnPhase cmd
      | some (format, extensions) =>
        match format.display with
        | none => (.panicked notImplementedMsg, [])
        | some s => spawnPhase { cmd with args := cmd.args ++ ["-t", formatWithExts s extensions] }

/-- `Pandoc::run` without the invocation trace. -/
def Pandoc.run (p : Pandoc) (envPATH : String) (exec : ExecOracle) : RunResult :=
  (p.runT envPATH exec).1

/-- Outcome of `Pandoc::preprocess`: the mutated builder, a typed
error, or a panic. -/
inductive PreResult where
  | ok (p : Pandoc)
  | err (e : PandocError)
  | panicked (msg : String)

/-- The pre-pass configuration assembled by `Pandoc::preprocess`
(lib.rs lines 1198–1211): fresh builder with copied path hints and
echo flag, pipe output forced to the JSON interchange format, and
the original input and input format moved over. -/
def Pandoc.prePassConfig (p : Pandoc) : Pandoc :=
  { Pandoc.new with
    pandoc_path_hint := p.pandoc_path_hint
    latex_path_hint := p.latex_path_hint
    output := some .Pipe
    output_format := some (.Json, [])
    input := p.input
    print_pandoc_cmdline := p.print_pandoc_cmdline
    input_format := p.input_format }

/-- `Pandoc::preprocess` (lib.rs line 1191). When at least one filter
is registered: run the pre-pass, decode its stdout with
`String::from_utf8(o).unwrap()` (a panic on invalid UTF-8), fold all
filters over the text, and feed the result back as a pipe payload
with the input format forced to `(Json, [])`. -/
def Pandoc.preprocessT (p : Pandoc) (envPATH : String) (exec : ExecOracle) :
    PreResult × List (Cmd × String) :=
  let filters := p.filters
  if filters.isEmpty then (.ok { p with filters := [] }, [])
  else
    match (p.prePassConfig).runT envPATH exec with
    | (.ok o, tr) =>
      match utf8Decode o with
      | .error _ => (.panicked utf8UnwrapMsg, tr)
      | .ok chars =>
        let filtered := filters.foldl (fun acc item => item acc) (String.mk chars)
        (.ok { p with filters := [],
                      input := some (.Pipe filtered),
                      input_format := some (.Json, []) }, tr)
    | (.err e, tr) => (.err e, tr)
    | (.panicked m, tr) => (.panicked m, tr)

/-- Outcome of `Pandoc::execute`. -/
inductive ExecuteResult where
  | ok (o : PandocOutput)
  | err (e : PandocError)
  | panicked (msg : String)
deriving DecidableEq, Repr

/-- `Pandoc::execute` (lib.rs line 1227): preprocess, run, then
classify the captured bytes by the configured output kind and
format (`Pdf`/`Docx` stay raw, everything else is decoded as UTF-8,
reporting `BadUtf8Conversion` with `valid_up_to` on failure). -/
def Pandoc.executeT (p : Pandoc) (envPATH : String) (exec : ExecOracle) :
    ExecuteResult × List (Cmd × String) :=
  match p.preprocessT envPATH exec with
  | (.err e, tr) => (.err e, tr)
  | (.panicked m, tr) => (.panicked m, tr)
  | (.ok p, tr) =>
    let output_format := p.output_format
    let output_kind := p.output
    match p.runT envPATH exec with
    | (.err e, tr2) => (.err e, tr ++ tr2)
    | (.panicked m, tr2) => (.panicked m, tr ++ tr2)
    | (.ok output, tr2) =>
      let res : ExecuteResult := match output_kind with
        | some (.File name) => .ok (.ToFile name)
        | some .Pipe =>
          match output_format with
          | some (.Pdf, _) | some (.Docx, _) => .ok (.ToBufferRaw output)
          | _ =>
            match utf8Decode output with
            | .ok chars => .ok (.ToBuffer (String.mk chars))
            | .error e => .err (.BadUtf8Conversion e.valid_up_to)
        | none => .err .NoOutputSpecified
      (res, tr ++ tr2)

/-- `Pandoc::execute` without the invocation trace. -/
def Pandoc.execute (p : Pandoc) (envPATH : String) (exec : ExecOracle) : ExecuteResult :=
  (p.executeT envPATH exec).1

/-! ### Spec-side helpers: the assembled invocation in closed form -/

/-- Tokens contributed by the input-format flag (`-f`). -/
def inputFormatArgs : Option (InputFormat × List MarkdownExtension) → List String
  | some (format, extensions) => ["-f", formatWithExts format.display extensions]
  | none => []

/-- Tokens contributed by the raw `--key=value` passthrough args. -/
def rawArgsTokens (args : List (String × String)) : List String :=
  args.map (fun (kv : String × String) => "--" ++ kv.1 ++ "=" ++ kv.2)

/-- Positional input file tokens (empty for piped input). -/
def positionalInputArgs : InputKind → List String
  | .Files files => files
  | .Pipe _ => []

/-- Tokens contributed by the output sink designation: `-o FILE` for a
file sink, `-o -` for a captured PDF pipe, nothing otherwise. -/
def outputSinkArgs : OutputKind → Option (OutputFormat × List MarkdownExtension) → List String
  | .File filename, _ => ["-o", filename]
  | .Pipe, some (.Pdf, _) => ["-o", "-"]
  | .Pipe, _ => []

/-- Tokens contributed by the output-format flag (`-t`), given its
already-rendered argument (or `none` when no output format is set). -/
def outputFormatArgs : Option String → List String
  | some s => ["-t", s]
  | none => []

/-- Tokens contributed by the option catalog, in insertion order. -/
def optionsTokens (options : List PandocOption) : List String :=
  options.flatMap PandocOption.apply

/-- The rendered `-t` argument: `none` means the rendering panics
(`Lua`), `some none` means no output format is configured, and
`some (some s)` means `-t s` is emitted. -/
def outputFormatDisplay : Option (OutputFormat × List MarkdownExtension) → Option (Option String)
  | none => some none
  | some (format, extensions) =>
    match format.display with
    | none => none
    | some s => some (some (formatWithExts s extensions))

/-- The full argument vector `Pandoc::run` assembles. -/
def builtArgs (p : Pandoc) (input : InputKind) (output : OutputKind)
    (tfmt : Option String) : List String :=
  inputFormatArgs p.input_format ++ rawArgsTokens p.args ++ positionalInputArgs input ++
    outputSinkArgs output p.output_format ++ outputFormatArgs tfmt ++
    optionsTokens p.options

/-- The search-path string `Pandoc::run` installs as the child's
`PATH`. -/
def builtPATH (p : Pandoc) (envPATH : String) : String :=
  String.intercalate PATH_DELIMIT
    (p.latex_path_hint ++ p.pandoc_path_hint ++ osSpecificPaths ++ LATEX_PATH ++ [envPATH])

/-- The text written to the child's stdin. -/
def inputTextOf : InputKind → String
  | .Files _ => ""
  | .Pipe text => text

/-- The command `Pandoc::run` hands to the OS. -/
def builtCmd (p : Pandoc) (envPATH : String) (input : InputKind) (output : OutputKind)
    (tfmt : Option String) : Cmd :=
  { program := "pandoc",
    args := builtArgs p input output tfmt,
    envPATH := some (builtPATH p envPATH),
    stdinPiped := (match input with | .Pipe _ => true | .Files _ => false),
    stdoutPiped := (match output with | .File _ => false | .Pipe => true),
    stderrPiped := true }

set_option maxHeartbeats 4000000 in
/-- Master lemma: whenever an input and an output are configured and
the output-format flag renders without panicking, `Pandoc::run`
attempts exactly one child invocation, whose command is `builtCmd`
(argument vector `builtArgs`, search path `builtPATH`), and
classifies the oracle's answer with `spawnClassify`. -/
theorem Pandoc.runT_eq (p : Pandoc) (envPATH : String) (exec : ExecOracle)
    (input : InputKind) (output : OutputKind) (tfmt : Option String)
    (hin : p.input = some input) (hout : p.output = some output)
    (hfmt : outputFormatDisplay p.output_format = some tfmt) :
    p.runT envPATH exec =
      (spawnClassify (exec (builtCmd p envPATH input output tfmt) (inputTextOf input)),
        [(builtCmd p envPATH input output tfmt, inputTextOf input)]) := by
  rcases hof : p.output_format with _ | ⟨f, exts⟩
  · simp only [outputFormatDisplay, hof, Option.some.injEq] at hfmt
    subst hfmt
    rcases hif : p.input_format with _ | ⟨ifmt, iexts⟩ <;>
      rcases input with files | text <;> rcases output with fn | _ <;>
        simp [Pandoc.runT, hin, hout, hof, hif, builtCmd, builtArgs, builtPATH, inputTextOf,
          spawnClassify, inputFormatArgs, rawArgsTokens, positionalInputArgs, outputSinkArgs,
          outputFormatArgs, optionsTokens]
  · simp only [outputFormatDisplay, hof] at hfmt
    rcases hd : f.display with _ | s
    · rw [hd] at hfmt
      cases hfmt
    · rw [hd] at hfmt
      obtain rfl : tfmt = some (formatWithExts s exts) := by
        cases hfmt
        rfl
      rcases hif : p.input_format with _ | ⟨ifmt, iexts⟩ <;>
        rcases input with files | text <;> rcases output with fn | _ <;> rcases f <;>
          simp [OutputFormat.display] at hd <;>
          (try subst hd) <;>
          simp [Pandoc.runT, hin, hout, hof, hif, builtCmd, builtArgs, builtPATH,
            inputTextOf, inputFormatArgs, rawArgsTokens, positionalInputArgs,
            outputSinkArgs, outputFormatArgs, optionsTokens, OutputFormat.display]

/-! ### Oracles and observation helpers used by the claim theorems -/

/-- A subprocess oracle that always reports the same completed child
process. -/
def constOutputExec (o : ProcessOutput) : ExecOracle := fun _ _ => ExecResult.output o

/-- A subprocess oracle whose spawn always fails with the given io
error. -/
def constSpawnFailExec (e : IoError) : ExecOracle := fun _ _ => ExecResult.spawnFailure e

/-- Observe the final `input_format` of a successful preprocess. -/
def PreResult.resultInputFormat :
    PreResult → Option (Option (InputFormat × List MarkdownExtension))
  | .ok p => some p.input_format
  | _ => none

/-- Observe the final `input` of a successful preprocess. -/
def PreResult.resultInput : PreResult → Option (Option InputKind)
  | .ok p => some p.input
  | _ => none

/-- Whether a run outcome is a Rust panic. -/
def RunResult.isPanicked : RunResult → Bool
  | .panicked _ => true
  | _ => false

/-- Output formats whose captured stdout `execute` decodes as text
and whose `-t` flag renders without panicking: everything except
`Pdf` and `Docx` (kept raw) and `Lua` (panics). -/
def textCapture : Option (OutputFormat × List MarkdownExtension) → Bool
  | none => true
  | some (.Pdf, _) => false
  | some (.Docx, _) => false
  | some (.Lua _, _) => false
  | some _ => true

/-- A successful child process with empty captured streams. -/
def okOut : ProcessOutput := { success := true, code := some 0, stdout := [], stderr := [] }

/-! ### Claim C2 -/

/-- Claim C2, counterexample: the deprecated reference-docx variant
does NOT render the current `--reference-doc` spelling; it still
renders the old `--reference-docx` spelling. -/
theorem C2_counterexample :
    PandocOption.apply (.ReferenceDocx ("r.docx")) = ["--reference-docx=r.docx"] ∧
      (["--reference-docx=r.docx"] : List String) ≠ ["--reference-doc=r.docx"] :=
  ⟨rfl, by decide⟩

/-- Claim C2 (amended): both historically renamed option variants
remain constructible; the atx-headers variant renders the current
`--markdown-headings=atx` spelling, while the reference-docx variant
renders the old `--reference-docx` spelling (not `--reference-doc`). -/
theorem C2_deprecated_variants (f : String) :
    PandocOption.apply PandocOption.AtxHeaders = ["--markdown-headings=atx"] ∧
      PandocOption.apply (PandocOption.ReferenceDocx f) = ["--reference-docx=" ++ f] :=
  ⟨rfl, rfl⟩

/-! ### Claim C4 -/

/-- Claim C4, counterexample: with a file input already added, a
second call `set_input(Pipe …)` does not fail fast — it succeeds and
silently replaces the file input with the pipe input. -/
theorem C4_counterexample :
    (Pandoc.new.add_input ("cake")).map
        (fun q => (q.set_input (InputKind.Pipe ("text"))).input) =
      some (some (InputKind.Pipe "text")) ∧
      some (some (InputKind.Pipe "text")) ≠ some (some (InputKind.Files ["cake"])) :=
  ⟨rfl, by decide⟩

/-- Claim C4 (amended): the two directions behave differently.
`add_input` after a pipe input panics (fails fast), but `set_input`
unconditionally overrides whatever input was supplied before,
silently preferring the new one — as its documentation states. -/
theorem C4_input_exclusivity (p : Pandoc) (f : String) (i : InputKind) :
    ((∃ s, p.input = some (.Pipe s)) → p.add_input f = none) ∧
      (p.set_input i).input = some i := by
  constructor
  · rintro ⟨s, hs⟩
    simp [Pandoc.add_input, hs]
  · rfl

theorem C4_input_exclusivity_witness :
    (Pandoc.new.set_input (.Pipe ("x"))).add_input ("f") = none ∧
      ((Pandoc.new.set_input (.Pipe ("x"))).set_input (.Files ["g"])).input =
        some (.Files ["g"]) :=
  ⟨(C4_input_exclusivity (Pandoc.new.set_input (.Pipe ("x"))) ("f") (.Files ["g"])).1
      ⟨"x", rfl⟩,
    (C4_input_exclusivity (Pandoc.new.set_input (.Pipe ("x"))) ("f") (.Files ["g"])).2⟩

/-! ### Claim C10 -/

/-- A builder whose output format is the custom-lua-writer variant
and with no output sink. -/
def C10cfg : Pandoc :=
  { Pandoc.new with output_format := some (.Lua ("w.lua"), []) }

/-- Claim C10, counterexample: a run of a configuration with the
custom-lua-writer output format but no output sink returns the typed
`NoOutputSpecified` error (and does not abort): the missing-output
check precedes the `-t` rendering that would panic. -/
theorem C10_counterexample :
    C10cfg.runT ("P") (constOutputExec okOut) = (.err .NoOutputSpecified, []) ∧
      RunResult.isPanicked (C10cfg.runT ("P") (constOutputExec okOut)).1 = false :=
  ⟨rfl, rfl⟩

/-- Claim C10 (amended): when an input source and an output sink are
both configured, a run of a configuration whose output format is the
custom-lua-writer variant panics (via `unimplemented!`) while
rendering the `-t` flag, before any child process is spawned; with a
missing output or input the corresponding typed error is returned
before the rendering is reached. -/
theorem C10_lua_panics (p : Pandoc) (envPATH : String) (exec : ExecOracle)
    (path : String) (exts : List MarkdownExtension) (i : InputKind) (o : OutputKind)
    (hfmt : p.output_format = some (.Lua path, exts))
    (hin : p.input = some i) (hout : p.output = some o) :
    p.runT envPATH exec = (.panicked notImplementedMsg, []) := by
  rcases i with files | text <;> rcases o with fn | _ <;>
    simp [Pandoc.runT, hin, hout, hfmt, OutputFormat.display]

/-- The C10 configuration completed with an input and a pipe sink. -/
def C10cfgFull : Pandoc :=
  { Pandoc.new with
    output_format := some (.Lua ("w.lua"), [])
    input := some (.Files ["in.md"])
    output := some .Pipe }

theorem C10_lua_panics_witness :
    C10cfgFull.runT ("P") (constOutputExec okOut) = (.panicked notImplementedMsg, []) :=
  C10_lua_panics C10cfgFull ("P") (constOutputExec okOut) ("w.lua") [] (.Files ["in.md"])
    .Pipe rfl rfl rfl

/-! ### Claim C7 -/

/-- Claim C7: when spawning the child fails, the OS not-found
condition is reported as the distinct `PandocNotFound` kind, and any
other OS error as the generic `IoErr` carrying that error. -/
theorem C7_spawn_failure (p : Pandoc) (envPATH : String) (exec : ExecOracle)
    (input : InputKind) (output : OutputKind) (tfmt : Option String) (e : IoError)
    (hin : p.input = some input) (hout : p.output = some output)
    (hfmt : outputFormatDisplay p.output_format = some tfmt)
    (hexec : ∀ c s, exec c s = .spawnFailure e) :
    (e.kind = .notFound → p.run envPATH exec = .err .PandocNotFound) ∧
      (e.kind ≠ .notFound → p.run envPATH exec = .err (.IoErr e)) := by
  have h := Pandoc.runT_eq p envPATH exec input output tfmt hin hout hfmt
  constructor
  · intro hk
    simp [Pandoc.run, h, hexec, spawnClassify, PandocError.fromIoError, hk]
  · intro hk
    rcases hkind : e.kind with _ | _ | _ | tag <;>
      simp_all [Pandoc.run, h, hexec, spawnClassify, PandocError.fromIoError]

/-- A plain file-to-file configuration. -/
def C7cfg : Pandoc :=
  { Pandoc.new with
    input := some (.Files ["in.md"])
    output := some (.File ("out.html")) }

/-- The OS errors used by the C7 witness. -/
def notFoundErr : IoError := { kind := .notFound, debugRepr := "os error 2" }

def permissionErr : IoError := { kind := .permissionDenied, debugRepr := "os error 13" }

theorem C7_spawn_failure_witness :
    C7cfg.run ("P") (constSpawnFailExec notFoundErr) = .err .PandocNotFound ∧
      C7cfg.run ("P") (constSpawnFailExec permissionErr) = .err (.IoErr permissionErr) :=
  ⟨(C7_spawn_failure C7cfg ("P") (constSpawnFailExec notFoundErr) (.Files ["in.md"])
      (.File ("out.html")) none notFoundErr rfl rfl rfl (fun _ _ => rfl)).1 rfl,
    (C7_spawn_failure C7cfg ("P") (constSpawnFailExec permissionErr) (.Files ["in.md"])
      (.File ("out.html")) none permissionErr rfl rfl rfl (fun _ _ => rfl)).2 (by decide)⟩

/-! ### Claim C9 -/

/-- Claim C9: the search-path string installed as the child's `PATH`
is exactly the LaTeX hints, then the converter hints, then the
(Windows-only, hence empty here) user-local install entries, then
the hard-coded typesetting-engine directories, then the inherited
path, joined with the platform delimiter — nothing deduplicated or
reordered, and it replaces the inherited value. -/
theorem C9_search_path (p : Pandoc) (envPATH : String) (exec : ExecOracle)
    (input : InputKind) (output : OutputKind) (tfmt : Option String)
    (hin : p.input = some input) (hout : p.output = some output)
    (hfmt : outputFormatDisplay p.output_format = some tfmt) :
    (p.runT envPATH exec).2.map (fun ct => ct.1.envPATH) =
      [some (String.intercalate PATH_DELIMIT
        (p.latex_path_hint ++ p.pandoc_path_hint ++ osSpecificPaths ++
          LATEX_PATH ++ [envPATH]))] := by
  rw [Pandoc.runT_eq p envPATH exec input output tfmt hin hout hfmt]
  rfl

/-- The configuration of the C9 witness: one LaTeX hint and one
converter hint. -/
def C9cfg : Pandoc :=
  { Pandoc.new with
    input := some (.Files ["in.md"])
    output := some (.File ("out.pdf"))
    latex_path_hint := ["/opt/tex"]
    pandoc_path_hint := ["/opt/pandoc"] }

theorem C9_search_path_witness :
    (C9cfg.runT ("/usr/bin:/bin") (constOutputExec okOut)).2.map (fun ct => ct.1.envPATH) =
      [some ("/opt/tex:/opt/pandoc:/usr/local/bin:/usr/local/texlive/2015/bin/i386-linux:/usr/bin:/bin")] := by
  rw [C9_search_path C9cfg ("/usr/bin:/bin") (constOutputExec okOut) (.Files ["in.md"])
    (.File ("out.pdf")) none rfl rfl rfl]
  rfl

/-! ### Claim C1 -/

/-- The configuration of the C1 counterexample and witness. -/
def C1cfg : Pandoc :=
  { Pandoc.new with
    input_format := some (.Markdown, [])
    args := [("toc-depth", "2")]
    input := some (.Files ["in.md"])
    output := some (.File ("out.html"))
    output_format := some (.Html, [])
    options := [.Strict] }

/-- Claim C1, counterexample: the positional input file paths are
appended before the output sink designation (not last): the
assembled vector is `-f markdown --toc-depth=2 in.md -o out.html -t
html --strict`, not `-f markdown --toc-depth=2 -o out.html -t html
--strict in.md` as the claimed order requires. -/
theorem C1_counterexample :
    (C1cfg.runT ("P") (constOutputExec okOut)).2.map (fun ct => ct.1.args) =
        [["-f", "markdown", "--toc-depth=2", "in.md", "-o", "out.html", "-t", "html",
          "--strict"]] ∧
      (["-f", "markdown", "--toc-depth=2", "in.md", "-o", "out.html", "-t", "html",
          "--strict"] : List String) ≠
        ["-f", "markdown", "--toc-depth=2", "-o", "out.html", "-t", "html", "--strict",
          "in.md"] :=
  ⟨rfl, by decide⟩

/-- Claim C1 (amended): the assembled argument vector is ordered:
input-format flag (if set), then raw passthrough args, then the
positional input file paths (only when input is file-based), then
the output sink designation, then the output-format flag (if set),
then every catalog option in insertion order. -/
theorem C1_argument_order (p : Pandoc) (envPATH : String) (exec : ExecOracle)
    (input : InputKind) (output : OutputKind) (tfmt : Option String)
    (hin : p.input = some input) (hout : p.output = some output)
    (hfmt : outputFormatDisplay p.output_format = some tfmt) :
    (p.runT envPATH exec).2.map (fun ct => ct.1.args) =
      [inputFormatArgs p.input_format ++ rawArgsTokens p.args ++
        positionalInputArgs input ++ outputSinkArgs output p.output_format ++
        outputFormatArgs tfmt ++ optionsTokens p.options] := by
  rw [Pandoc.runT_eq p envPATH exec input output tfmt hin hout hfmt]
  rfl

theorem C1_argument_order_witness :
    (C1cfg.runT ("P") (constOutputExec okOut)).2.map (fun ct => ct.1.args) =
      [inputFormatArgs C1cfg.input_format ++ rawArgsTokens C1cfg.args ++
        positionalInputArgs (.Files ["in.md"]) ++
        outputSinkArgs (.File ("out.html")) C1cfg.output_format ++
        outputFormatArgs (some "html") ++ optionsTokens C1cfg.options] :=
  C1_argument_order C1cfg ("P") (constOutputExec okOut) (.Files ["in.md"])
    (.File ("out.html")) (some "html") rfl rfl rfl

/-! ### Helper lemmas about `preprocess` and `execute` -/

/-- `(s ++ t).data = s.data ++ t.data` for Lean strings. -/
theorem strData_append (s t : String) : (s ++ t).data = s.data ++ t.data := rfl

/-- Successful preprocess: with at least one filter, a pre-pass that
returns bytes decoding to `cs`, the builder comes back with the
folded filter output as a pipe payload and `(Json, [])` as its input
format. -/
theorem Pandoc.preprocessT_ok (p : Pandoc) (envPATH : String) (exec : ExecOracle)
    (bytes : List Nat) (cs : List Char) (tr : List (Cmd × String))
    (hf : p.filters ≠ [])
    (hrun : (p.prePassConfig).runT envPATH exec = (.ok bytes, tr))
    (hdec : utf8Decode bytes = .ok cs) :
    p.preprocessT envPATH exec =
      (.ok { p with filters := [],
                    input := some (.Pipe (p.filters.foldl (fun acc item => item acc)
                      (String.mk cs))),
                    input_format := some (.Json, []) }, tr) := by
  have hne : p.filters.isEmpty = false := by
    rcases hfl : p.filters with _ | ⟨a, as⟩
    · exact absurd hfl hf
    · rfl
  simp [Pandoc.preprocessT, hne, hrun, hdec]

/-- Preprocess with an invalid-UTF-8 pre-pass output panics
(`Result::unwrap` on the `Utf8Error`). -/
theorem Pandoc.preprocessT_badUtf8 (p : Pandoc) (envPATH : String) (exec : ExecOracle)
    (bytes : List Nat) (e : Utf8Error) (tr : List (Cmd × String))
    (hf : p.filters ≠ [])
    (hrun : (p.prePassConfig).runT envPATH exec = (.ok bytes, tr))
    (hdec : utf8Decode bytes = .error e) :
    p.preprocessT envPATH exec = (.panicked utf8UnwrapMsg, tr) := by
  have hne : p.filters.isEmpty = false := by
    rcases hfl : p.filters with _ | ⟨a, as⟩
    · exact absurd hfl hf
    · rfl
  simp [Pandoc.preprocessT, hne, hrun, hdec]

/-- With at least one filter, the preprocess trace is exactly the
pre-pass run trace, whatever happened. -/
theorem Pandoc.preprocessT_snd (p : Pandoc) (envPATH : String) (exec : ExecOracle)
    (hf : p.filters ≠ []) :
    (p.preprocessT envPATH exec).2 = ((p.prePassConfig).runT envPATH exec).2 := by
  have hne : p.filters.isEmpty = false := by
    rcases hfl : p.filters with _ | ⟨a, as⟩
    · exact absurd hfl hf
    · rfl
  rcases hR : (p.prePassConfig).runT envPATH exec with ⟨r, tr⟩
  rcases r with bytes | e | m
  · rcases hd : utf8Decode bytes with e' | cs' <;>
      simp [Pandoc.preprocessT, hne, hR, hd]
  · simp [Pandoc.preprocessT, hne, hR]
  · simp [Pandoc.preprocessT, hne, hR]

/-- The execute trace extends the preprocess trace. -/
theorem Pandoc.executeT_snd_append (p : Pandoc) (envPATH : String) (exec : ExecOracle) :
    ∃ rest, (p.executeT envPATH exec).2 = (p.preprocessT envPATH exec).2 ++ rest := by
  rcases hp : p.preprocessT envPATH exec with ⟨pr, tr⟩
  rcases pr with p' | e | m
  · rcases hr : p'.runT envPATH exec with ⟨r2, tr2⟩
    rcases r2 <;> exact ⟨tr2, by simp [Pandoc.executeT, hp, hr]⟩
  · exact ⟨[], by simp [Pandoc.executeT, hp]⟩
  · exact ⟨[], by simp [Pandoc.executeT, hp]⟩

/-- A text-capturing output format always renders its `-t` flag. -/
theorem textCapture_display (x : Option (OutputFormat × List MarkdownExtension))
    (h : textCapture x = true) : ∃ s, outputFormatDisplay x = some s := by
  rcases x with _ | ⟨f, exts⟩
  · exact ⟨none, rfl⟩
  · rcases f <;> first
      | exact ⟨some _, rfl⟩
      | simp_all [textCapture]

/-! ### Claim C3 -/

/-- Configuration with one (identity) filter, a file input, and an
input format carrying a non-empty extension list. -/
def C3cfg : Pandoc :=
  { Pandoc.new with
    input := some (.Files ["f.md"])
    input_format := some (.Markdown, [.Smart])
    filters := [fun s => s] }

/-- Claim C3, counterexample: after the pre-pass the original
configuration's input-format is the JSON interchange format with an
EMPTY extension list — the original `[Smart]` extension list is not
preserved on it (it is moved onto the pre-pass configuration). -/
theorem C3_counterexample :
    PreResult.resultInputFormat (C3cfg.preprocessT ("P") (constOutputExec okOut)).1 =
        some (some (.Json, [])) ∧
      (some (some ((InputFormat.Json, [MarkdownExtension.Smart]))) :
          Option (Option (InputFormat × List MarkdownExtension))) ≠
        some (some (.Json, [])) := by
  constructor
  · rw [Pandoc.preprocessT_ok C3cfg ("P") (constOutputExec okOut) [] [] _
      (by simp [C3cfg]) rfl (utf8DecodeFrom_eq_done 0 [] rfl)]
    rfl
  · simp

/-- Claim C3 (amended): for a configuration with at least one filter
and an input format carrying a non-empty extension list, a
successful pre-pass leaves the original configuration's input as the
final filtered text as a pipe payload, and its input-format as the
JSON interchange format with an EMPTY extension list: the original
format together with its extension list is consumed by the pre-pass
configuration instead of being preserved. -/
theorem C3_preprocess (p : Pandoc) (envPATH : String) (exec : ExecOracle)
    (fmt : InputFormat) (exts : List MarkdownExtension) (bytes : List Nat)
    (cs : List Char) (tr : List (Cmd × String))
    (hf : p.filters ≠ []) (hifmt : p.input_format = some (fmt, exts)) (hne : exts ≠ [])
    (hrun : (p.prePassConfig).runT envPATH exec = (.ok bytes, tr))
    (hdec : utf8Decode bytes = .ok cs) :
    (p.preprocessT envPATH exec).1 =
      .ok { p with filters := [],
                   input := some (.Pipe (p.filters.foldl (fun acc item => item acc)
                     (String.mk cs))),
                   input_format := some (.Json, []) } ∧
      p.prePassConfig.input_format = some (fmt, exts) ∧
      p.prePassConfig.output_format = some (.Json, []) := by
  refine ⟨?_, by simp [Pandoc.prePassConfig, hifmt], by simp [Pandoc.prePassConfig]⟩
  rw [Pandoc.preprocessT_ok p envPATH exec bytes cs tr hf hrun hdec]

theorem C3_preprocess_witness :
    (C3cfg.preprocessT ("P") (constOutputExec okOut)).1 =
      .ok { C3cfg with filters := [],
                       input := some (.Pipe (C3cfg.filters.foldl (fun acc item => item acc)
                         (String.mk []))),
                       input_format := some (.Json, []) } ∧
      C3cfg.prePassConfig.input_format = some (.Markdown, [.Smart]) ∧
      C3cfg.prePassConfig.output_format = some (.Json, []) :=
  C3_preprocess C3cfg ("P") (constOutputExec okOut) .Markdown [.Smart] [] [] _
    (by simp [C3cfg]) rfl (by simp) rfl (utf8DecodeFrom_eq_done 0 [] rfl)

/-! ### Claim C5 -/

/-- Configuration with one filter and an input but no output sink. -/
def C5cfg : Pandoc :=
  { Pandoc.new with
    input := some (.Files ["in.md"])
    filters := [fun s => s] }

/-- The same configuration without the filter. -/
def C5cfgNoFilter : Pandoc :=
  { Pandoc.new with input := some (.Files ["in.md"]) }

/-- Claim C5, counterexample: with a filter registered and an input
available but no output sink, `execute` still spawns the pre-pass
child — the trace records one attempted invocation — before
reporting the `NoOutputSpecified` error. -/
theorem C5_counterexample :
    (C5cfg.executeT ("P") (constOutputExec okOut)).1 = .err .NoOutputSpecified ∧
      (C5cfg.executeT ("P") (constOutputExec okOut)).2.length = 1 := by
  have hpre := Pandoc.preprocessT_ok C5cfg ("P") (constOutputExec okOut) [] [] _
    (by simp [C5cfg]) rfl (utf8DecodeFrom_eq_done 0 [] rfl)
  constructor
  · simp only [Pandoc.executeT]
    rw [hpre]
    rfl
  · simp only [Pandoc.executeT]
    rw [hpre]
    rfl

/-- Claim C5 (amended): with no output sink configured, `execute`
reports the `NoOutputSpecified` error kind; when no filters are
registered it never attempts to spawn a child, but when at least one
filter is registered and an input is available, the filter pre-pass
does spawn a child before the error is reported. -/
theorem C5_no_output (p : Pandoc) (envPATH : String) (exec : ExecOracle)
    (hout : p.output = none) :
    (p.filters = [] → p.executeT envPATH exec = (.err .NoOutputSpecified, [])) ∧
      (∀ i, p.filters ≠ [] → p.input = some i → (p.executeT envPATH exec).2 ≠ []) := by
  constructor
  · intro hf
    simp [Pandoc.executeT, Pandoc.preprocessT, hf, Pandoc.runT, hout]
  · intro i hf hin
    have hfmt : outputFormatDisplay (p.prePassConfig).output_format = some (some "json") := by
      simp [Pandoc.prePassConfig, outputFormatDisplay, OutputFormat.display, formatWithExts]
    have hin' : (p.prePassConfig).input = some i := by simp [Pandoc.prePassConfig, hin]
    have hout' : (p.prePassConfig).output = some .Pipe := by simp [Pandoc.prePassConfig]
    have hrun := Pandoc.runT_eq (p.prePassConfig) envPATH exec i .Pipe (some "json")
      hin' hout' hfmt
    obtain ⟨rest, hsnd⟩ := Pandoc.executeT_snd_append p envPATH exec
    rw [hsnd, Pandoc.preprocessT_snd p envPATH exec hf, hrun]
    simp

theorem C5_no_output_witness :
    C5cfgNoFilter.executeT ("P") (constOutputExec okOut) = (.err .NoOutputSpecified, []) ∧
      (C5cfg.executeT ("P") (constOutputExec okOut)).2 ≠ [] :=
  ⟨(C5_no_output C5cfgNoFilter ("P") (constOutputExec okOut) rfl).1 rfl,
    (C5_no_output C5cfg ("P") (constOutputExec okOut) rfl).2 (.Files ["in.md"])
      (by simp [C5cfg]) rfl⟩

/-! ### Claim C6 -/

/-- Configuration with one filter, an input and a captured pipe
output. -/
def C6cfg : Pandoc :=
  { Pandoc.new with
    input := some (.Files ["in.md"])
    output := some .Pipe
    filters := [fun s => s] }

/-- A successful child whose stdout is a single invalid byte. -/
def badOut : ProcessOutput := { success := true, code := some 0, stdout := [0xFF], stderr := [] }

/-- Claim C6, counterexample: when the filter pre-pass captures
invalid UTF-8, `execute` panics (`Result::unwrap` on the decode
error) instead of returning the UTF-8-decode-failure error kind. -/
theorem C6_counterexample :
    (C6cfg.executeT ("P") (constOutputExec badOut)).1 = .panicked utf8UnwrapMsg ∧
      (C6cfg.executeT ("P") (constOutputExec badOut)).1 ≠ .err (.BadUtf8Conversion 0) := by
  have hdec : utf8Decode [0xFF] = .error ⟨0, some 1⟩ :=
    utf8DecodeFrom_eq_bad 0 [0xFF] (some 1) rfl
  have hpre := Pandoc.preprocessT_badUtf8 C6cfg ("P") (constOutputExec badOut)
    [0xFF] ⟨0, some 1⟩ _ (by simp [C6cfg]) rfl hdec
  constructor
  · simp only [Pandoc.executeT]
    rw [hpre]
  · simp only [Pandoc.executeT]
    rw [hpre]
    simp

/-- The C6 witness configuration: no filters, file input, captured
pipe output, no output format. -/
def C6wcfg : Pandoc :=
  { Pandoc.new with
    input := some (.Files ["in.md"])
    output := some .Pipe }

/-- Claim C6 (amended): in the execute call's capture-pipe decoding,
invalid UTF-8 is reported as the `BadUtf8Conversion` error kind
carrying `valid_up_to`, which really counts valid leading bytes (the
prefix of that length decodes successfully); the filter pre-pass
decoding, by contrast, panics on invalid UTF-8 instead of returning
the typed error. -/
theorem C6_utf8_reporting (p : Pandoc) (envPATH : String) (exec : ExecOracle)
    (o : ProcessOutput) (i : InputKind) (e : Utf8Error)
    (hf : p.filters = []) (hin : p.input = some i) (hout : p.output = some .Pipe)
    (htext : textCapture p.output_format = true)
    (hexec : ∀ c s, exec c s = .output o) (hsucc : o.success = true)
    (hdec : utf8Decode o.stdout = .error e) :
    (p.executeT envPATH exec).1 = .err (.BadUtf8Conversion e.valid_up_to) ∧
      (∃ cs, utf8Decode (o.stdout.take e.valid_up_to) = .ok cs) ∧
      (∀ q : Pandoc, ∀ (bytes : List Nat) (e' : Utf8Error) (tr : List (Cmd × String)),
        q.filters ≠ [] → (q.prePassConfig).runT envPATH exec = (.ok bytes, tr) →
        utf8Decode bytes = .error e' →
        (q.preprocessT envPATH exec).1 = .panicked utf8UnwrapMsg) := by
  refine ⟨?_, ?_, fun q bytes e' tr hq hrun hd => by
    rw [Pandoc.preprocessT_badUtf8 q envPATH exec bytes e' tr hq hrun hd]⟩
  · obtain ⟨tfmt, hfmt⟩ := textCapture_display p.output_format htext
    have hpre : p.preprocessT envPATH exec = (.ok { p with filters := [] }, []) := by
      simp [Pandoc.preprocessT, hf]
    have hrun := Pandoc.runT_eq ({ p with filters := [] } : Pandoc) envPATH exec
      i .Pipe tfmt hin hout hfmt
    simp only [Pandoc.executeT, hpre]
    rw [hrun]
    simp only [hexec, spawnClassify, hsucc, if_true]
    rcases hof : p.output_format with _ | ⟨f, exts⟩
    · simp [hof, hout, hdec]
    · rcases f <;> simp_all [textCapture, hout, hdec]
  · obtain ⟨_, cs, hcs⟩ := utf8DecodeFrom_error_prefix 0 o.stdout e hdec
    refine ⟨cs, ?_⟩
    simpa using hcs

theorem C6_utf8_reporting_witness :
    (C6wcfg.executeT ("P") (constOutputExec badOut)).1 = .err (.BadUtf8Conversion 0) :=
  (C6_utf8_reporting C6wcfg ("P") (constOutputExec badOut) badOut (.Files ["in.md"])
    ⟨0, some 1⟩ rfl rfl rfl rfl (fun _ _ => rfl) rfl
    (utf8DecodeFrom_eq_bad 0 [0xFF] (some 1) rfl)).1

/-! ### Claim C8 -/

/-- A plain file-to-file configuration. -/
def C8cfg : Pandoc :=
  { Pandoc.new with
    input := some (.Files ["in.md"])
    output := some (.File ("out.html")) }

/-- A failed child whose stderr is a single invalid byte. -/
def C8out : ProcessOutput :=
  { success := false, code := some 1, stdout := [], stderr := [0xFF] }

/-- Claim C8, counterexample: the error value does carry the full
output, but its textual rendering goes through lossy UTF-8 decoding:
for a child whose stderr is the invalid byte 0xFF, the rendering
does not contain that captured stderr byte (it contains U+FFFD
instead). -/
theorem C8_counterexample :
    C8cfg.run ("P") (constOutputExec C8out) = .err (.Err C8out) ∧
      ¬ (C8out.stderr <:+: strBytes (PandocError.debugRender (.Err C8out))) := by
  constructor
  · rfl
  · have h1 : utf8LossyFrom [0xFF] = [replacementChar] := by
      rw [utf8LossyFrom_eq_badSome [0xFF] 1 rfl]
      rw [show List.drop 1 ([0xFF] : List Nat) = [] from rfl]
      rw [utf8LossyFrom_eq_done [] rfl]
    have h2 : utf8LossyFrom ([] : List Nat) = [] := utf8LossyFrom_eq_done [] rfl
    have hrender : PandocError.debugRender (.Err C8out) =
        "exit_code: Some(1)stdout: stderr: �" := by
      simp [PandocError.debugRender, C8out, utf8Lossy, h1, h2, codeDebug, replacementChar]
      rfl
    rw [hrender]
    decide

/-- A failed child with valid-UTF-8 stderr, for the witness. -/
def C8wout : ProcessOutput :=
  { success := false, code := some 1, stdout := [], stderr := strBytes ("boom") }

/-- Claim C8 (amended): a nonzero child exit makes `run` return
`PandocError::Err` carrying the full output (exit code, stdout,
stderr); the Debug rendering contains the LOSSY UTF-8 decoding of
the captured stderr bytes, which agrees with the strict decoding
whenever the stderr bytes are valid UTF-8. -/
theorem C8_nonzero_exit (p : Pandoc) (envPATH : String) (exec : ExecOracle)
    (o : ProcessOutput) (input : InputKind) (output : OutputKind) (tfmt : Option String)
    (hin : p.input = some input) (hout : p.output = some output)
    (hfmt : outputFormatDisplay p.output_format = some tfmt)
    (hexec : ∀ c s, exec c s = .output o) (hfail : o.success = false) :
    p.run envPATH exec = .err (.Err o) ∧
      utf8LossyFrom o.stderr <:+: (PandocError.debugRender (.Err o)).data ∧
      (∀ cs, utf8Decode o.stderr = .ok cs → utf8LossyFrom o.stderr = cs) := by
  refine ⟨?_, ?_, fun cs h => utf8LossyFrom_of_ok 0 o.stderr cs h⟩
  · have h := Pandoc.runT_eq p envPATH exec input output tfmt hin hout hfmt
    simp [Pandoc.run, h, hexec, spawnClassify, hfail]
  · have hdata : (PandocError.debugRender (.Err o)).data =
        ("exit_code: " ++ codeDebug o.code ++ "stdout: " ++ utf8Lossy o.stdout ++
          "stderr: ").data ++ utf8LossyFrom o.stderr := by
      simp [PandocError.debugRender, utf8Lossy, strData_append]
    rw [hdata]
    exact (List.suffix_append _ _).isInfix

theorem C8_nonzero_exit_witness :
    C8cfg.run ("P") (constOutputExec C8wout) = .err (.Err C8wout) ∧
      utf8LossyFrom C8wout.stderr <:+: (PandocError.debugRender (.Err C8wout)).data :=
  ⟨(C8_nonzero_exit C8cfg ("P") (constOutputExec C8wout) C8wout (.Files ["in.md"])
      (.File ("out.html")) none rfl rfl rfl (fun _ _ => rfl) rfl).1,
    (C8_nonzero_exit C8cfg ("P") (constOutputExec C8wout) C8wout (.Files ["in.md"])
      (.File ("out.html")) none rfl rfl rfl (fun _ _ => rfl) rfl).2.1⟩

theorem C2_deprecated_variants_witness :
    PandocOption.apply PandocOption.AtxHeaders = ["--markdown-headings=atx"] ∧
      PandocOption.apply (PandocOption.ReferenceDocx ("r.docx")) =
        ["--reference-docx=" ++ "r.docx"] :=
  C2_deprecated_variants ("r.docx")
